import Mathlib

/-!
# Verification of the nginx-operator reconcile loop

Shallow embedding of `internal/controller/nginxoperator_controller.go`.

The Kubernetes objects are records that keep the Go field names and nesting.
The object store behind `client.Client` is a parameter: a record of operations
over an abstract store state. `Reconcile` is a pure function from a store state
to an outcome, the sequence of store calls it issued, and the resulting store
state. A Go run-time panic (index out of range, nil dereference) is an explicit
outcome.
-/

set_option autoImplicit false
set_option linter.dupNamespace false

namespace NginxOperatorController

/-! ## Data model -/

/-- Go `types.NamespacedName`: the identity of an object. -/
structure NamespacedName where
  Namespace : String
  Name : String
  deriving DecidableEq

/-- Go `ctrl.Request`, which embeds a `NamespacedName`. -/
structure Request where
  NamespacedName : NamespacedName
  deriving DecidableEq

/-- Promoted field `req.Namespace`. -/
def Request.Namespace (req : Request) : String := req.NamespacedName.Namespace

/-- Promoted field `req.Name`. -/
def Request.Name (req : Request) : String := req.NamespacedName.Name

/-- Go `corev1.ContainerPort`; `ContainerPort` is an `int32` that is only copied. -/
structure ContainerPort where
  Name : String
  ContainerPort : Int
  deriving DecidableEq

/-- Go `corev1.Container`, restricted to the fields the controller can reach. -/
structure Container where
  Name : String
  Image : String
  Ports : List ContainerPort
  deriving DecidableEq

/-- Go `corev1.PodSpec`. -/
structure PodSpec where
  Containers : List Container
  deriving DecidableEq

/-- Go `corev1.PodTemplateSpec`. -/
structure PodTemplateSpec where
  Labels : List (String × String)
  Spec : PodSpec
  deriving DecidableEq

/-- Go `metav1.LabelSelector`. -/
structure LabelSelector where
  MatchLabels : List (String × String)
  deriving DecidableEq

/-- Go `appsv1.DeploymentSpec`; `Replicas` and `Selector` are pointers. -/
structure DeploymentSpec where
  Replicas : Option Int
  Selector : Option LabelSelector
  Template : PodTemplateSpec
  deriving DecidableEq

/-- Go `metav1.OwnerReference`, with `APIVersion` held in its parsed form
(group and version). -/
structure OwnerReference where
  Group : String
  Version : String
  Kind : String
  Name : String
  UID : String
  Controller : Option Bool
  BlockOwnerDeletion : Option Bool
  deriving DecidableEq

/-- Go `appsv1.Deployment`: the managed workload. -/
structure Deployment where
  Namespace : String
  Name : String
  OwnerReferences : List OwnerReference
  Spec : DeploymentSpec
  deriving DecidableEq

/-- Modelled from the spec: `operatorv1alpha1.NginxOperatorSpec` (package
`api/v1alpha1`), an optional desired port and an optional replica count. -/
structure NginxOperatorSpec where
  Port : Option Int
  Replicas : Option Int
  deriving DecidableEq

/-- Modelled from the spec: `operatorv1alpha1.NginxOperatorStatus`, the ordered
list of instance names. -/
structure NginxOperatorStatus where
  Nodes : List String
  deriving DecidableEq

/-- Modelled from the spec: `operatorv1alpha1.NginxOperator`, the desired-state
resource, identified by namespace and name. -/
structure NginxOperator where
  Namespace : String
  Name : String
  UID : String
  Spec : NginxOperatorSpec
  Status : NginxOperatorStatus
  deriving DecidableEq

/-- Go `corev1.PodPhase`, a string type. -/
abbrev PodPhase := String

/-- Go `corev1.PodRunning`. -/
def PodRunning : PodPhase := "Running"

/-- Go `corev1.PodPending`. -/
def PodPending : PodPhase := "Pending"

/-- Go `corev1.PodStatus`. -/
structure PodStatus where
  Phase : PodPhase
  deriving DecidableEq

/-- Go `corev1.Pod`: an instance of the workload. -/
structure Pod where
  Namespace : String
  Name : String
  Labels : List (String × String)
  Status : PodStatus
  deriving DecidableEq

/-! ## Errors, outcomes and the record of store calls -/

/-- Error values returned by the object store and by the library. -/
inductive Err where
  | notFound
  | alreadyExists
  | conflict
  | alreadyOwned
  | invalidOwner
  | other (msg : String)
  deriving DecidableEq

/-- Go `errors.IsNotFound`. -/
def errors.IsNotFound : Err → Bool
  | .notFound => true
  | _ => false

/-- Go run-time panics reachable in `Reconcile`. -/
inductive Panic where
  | indexOutOfRange
  | nilDereference
  deriving DecidableEq

/-- Result of one reconcile pass: `done` is `(ctrl.Result{}, nil)`, `failed err`
is `(ctrl.Result{}, err)`, `panicked` is an uncaught run-time panic. -/
inductive Outcome where
  | done
  | failed (err : Err)
  | panicked (p : Panic)
  deriving DecidableEq

/-- One call issued to the object store. -/
inductive Call where
  | GetOperator (key : NamespacedName)
  | GetDeployment (key : NamespacedName)
  | Create (obj : Deployment)
  | Update (obj : Deployment)
  | ListPods (ns : String) (labels : List (String × String))
  | StatusUpdate (obj : NginxOperator)
  deriving DecidableEq

/-- A call that writes to the store. -/
def Call.isWrite : Call → Bool
  | .Create _ => true
  | .Update _ => true
  | .StatusUpdate _ => true
  | _ => false

/-- Go `NginxOperatorReconciler`: the embedded `client.Client` as operations on a
store state `σ`, together with the two collaborators the pass calls. Reads do
not change the store; a write either fails or yields the new store (and, for
`Create` and `Update`, the object as the client wrote it back into `obj`). -/
structure NginxOperatorReconciler (σ : Type) where
  /-- Call `r.Get(ctx, key, operatorCR)`. -/
  GetOperator : σ → NamespacedName → Except Err NginxOperator
  /-- Call `r.Get(ctx, key, deployment)`. -/
  GetDeployment : σ → NamespacedName → Except Err Deployment
  /-- Call `r.Create(ctx, deployment)`. -/
  Create : σ → Deployment → Except Err (σ × Deployment)
  /-- Call `r.Update(ctx, deployment)`. -/
  Update : σ → Deployment → Except Err (σ × Deployment)
  /-- Call `r.List(ctx, podList, InNamespace(ns), MatchingLabels(labels))`. -/
  ListPods : σ → String → List (String × String) → Except Err (List Pod)
  /-- Call `r.Status().Update(ctx, operatorCR)`. -/
  StatusUpdate : σ → NginxOperator → Except Err σ
  /-- Call `ctrl.SetControllerReference(owner, controlled, r.Scheme)`: the owner
  references of `controlled` after the call, and the returned error. -/
  SetControllerReference : NginxOperator → Deployment → List OwnerReference × Option Err
  /-- Call `assets.GetDeploymentFromFile(path)`. -/
  GetDeploymentFromFile : String → Deployment

/-- What a pass leaves behind: its outcome, the store calls it issued in order,
and the store state afterwards. -/
structure Run (σ : Type) where
  outcome : Outcome
  calls : List Call
  store : σ

/-! ## The reconcile pass -/

/-- Line 97: `deployment.Spec.Template.Spec.Containers[0].Ports[0].ContainerPort = port`.
Indexing an empty slice panics. -/
def setContainerPort (deployment : Deployment) (port : Int) : Except Panic Deployment :=
  match deployment.Spec.Template.Spec.Containers with
  | [] => .error .indexOutOfRange
  | c :: cs =>
    match c.Ports with
    | [] => .error .indexOutOfRange
    | p :: ps =>
      .ok { deployment with
        Spec := { deployment.Spec with
          Template := { deployment.Spec.Template with
            Spec := { deployment.Spec.Template.Spec with
              Containers :=
                { c with Ports := { p with ContainerPort := port } :: ps } :: cs } } } }

/-- Lines 96-98: the port override, applied only when `operatorCR.Spec.Port` is set. -/
def overridePort (operatorCR : NginxOperator) (deployment : Deployment) :
    Except Panic Deployment :=
  match operatorCR.Spec.Port with
  | some port => setContainerPort deployment port
  | none => .ok deployment

/-- Lines 125-130: the loop collecting the names of running pods, with the
accumulator `activePods`. -/
def activePodsLoop (activePods : List String) : List Pod → List String
  | [] => activePods
  | pod :: rest =>
    if pod.Status.Phase = PodRunning then activePodsLoop (activePods ++ [pod.Name]) rest
    else activePodsLoop activePods rest

/-- Lines 125-130 started from `make([]string, 0)`. -/
def activePods (items : List Pod) : List String := activePodsLoop [] items

/-- Lines 72-86: retrieve the deployment, or take the template and set the
`create` marker when it is not found. -/
def fetchDeployment {σ : Type} (r : NginxOperatorReconciler σ) (req : Request) (s : σ) :
    Except Err (Bool × Deployment) :=
  match r.GetDeployment s req.NamespacedName with
  | .error err =>
    if errors.IsNotFound err then
      -- Create the deployment from file if not found
      .ok (true, r.GetDeploymentFromFile "manifests/nginx_deployment.yaml")
    else
      -- Error getting existing Nginx deployment
      .error err
  | .ok deployment => .ok (false, deployment)

/-- Lines 88-99: set the deployment fields. The error returned by
`ctrl.SetControllerReference` is discarded (line 99). -/
def setDeploymentFields {σ : Type} (r : NginxOperatorReconciler σ) (req : Request)
    (operatorCR : NginxOperator) (deployment : Deployment) : Except Panic Deployment :=
  let deployment := { deployment with Namespace := req.Namespace }
  let deployment := { deployment with Name := req.Name }
  let replicas : Int := 5
  let deployment :=
    { deployment with Spec := { deployment.Spec with Replicas := some replicas } }
  match overridePort operatorCR deployment with
  | .error p => .error p
  | .ok deployment =>
    .ok { deployment with
      OwnerReferences := (r.SetControllerReference operatorCR deployment).1 }

/-- Lines 102-106: create or update the deployment, per the `create` marker. -/
def writeDeployment {σ : Type} (r : NginxOperatorReconciler σ) (s : σ) (create : Bool)
    (deployment : Deployment) : Except Err (σ × Deployment) :=
  if create then r.Create s deployment else r.Update s deployment

/-- Lines 102-106: the store call that `writeDeployment` issues. -/
def writeCall (create : Bool) (deployment : Deployment) : Call :=
  if create then .Create deployment else .Update deployment

/-- Go `NginxOperatorReconciler.Reconcile` (lines 55-140). -/
def Reconcile {σ : Type} (r : NginxOperatorReconciler σ) (req : Request) (s : σ) : Run σ :=
  -- Retrieve the NginxOperator resource
  match r.GetOperator s req.NamespacedName with
  | .error err =>
    if errors.IsNotFound err then
      -- Operator resource object not found
      ⟨.done, [.GetOperator req.NamespacedName], s⟩
    else
      -- Error getting operator resource object
      ⟨.failed err, [.GetOperator req.NamespacedName], s⟩
  | .ok operatorCR =>
    -- Retrieve or create the Nginx deployment
    match fetchDeployment r req s with
    | .error err =>
      ⟨.failed err, [.GetOperator req.NamespacedName, .GetDeployment req.NamespacedName], s⟩
    | .ok (create, deployment) =>
      -- Set deployment fields
      match setDeploymentFields r req operatorCR deployment with
      | .error p =>
        ⟨.panicked p, [.GetOperator req.NamespacedName, .GetDeployment req.NamespacedName], s⟩
      | .ok deployment =>
        -- Create or update the deployment
        match writeDeployment r s create deployment with
        | .error err =>
          ⟨.failed err,
            [.GetOperator req.NamespacedName, .GetDeployment req.NamespacedName,
              writeCall create deployment], s⟩
        | .ok (s1, deployment1) =>
          -- List pods associated with the deployment
          match deployment1.Spec.Selector with
          | none =>
            ⟨.panicked .nilDereference,
              [.GetOperator req.NamespacedName, .GetDeployment req.NamespacedName,
                writeCall create deployment], s1⟩
          | some selector =>
            match r.ListPods s1 req.Namespace selector.MatchLabels with
            | .error err =>
              -- Error listing pods
              ⟨.failed err,
                [.GetOperator req.NamespacedName, .GetDeployment req.NamespacedName,
                  writeCall create deployment,
                  .ListPods req.Namespace selector.MatchLabels], s1⟩
            | .ok podList =>
              -- Update the NginxOperatorStatus.Nodes with the names of active pods
              let operatorCR := { operatorCR with Status := { Nodes := activePods podList } }
              -- Update the NginxOperator status
              match r.StatusUpdate s1 operatorCR with
              | .error err =>
                ⟨.failed err,
                  [.GetOperator req.NamespacedName, .GetDeployment req.NamespacedName,
                    writeCall create deployment,
                    .ListPods req.Namespace selector.MatchLabels,
                    .StatusUpdate operatorCR], s1⟩
              | .ok s2 =>
                ⟨.done,
                  [.GetOperator req.NamespacedName, .GetDeployment req.NamespacedName,
                    writeCall create deployment,
                    .ListPods req.Namespace selector.MatchLabels,
                    .StatusUpdate operatorCR], s2⟩

/-! ## Observations used to state the properties -/

/-- The container port of the first port of the first container, if both exist. -/
def firstPort (deployment : Deployment) : Option Int :=
  match deployment.Spec.Template.Spec.Containers with
  | [] => none
  | c :: _ =>
    match c.Ports with
    | [] => none
    | p :: _ => some p.ContainerPort

/-- The call is `r.Create`. -/
def Call.isCreate : Call → Bool
  | .Create _ => true
  | _ => false

/-- The call is `r.Update` on a deployment. -/
def Call.isUpdate : Call → Bool
  | .Update _ => true
  | _ => false

/-- The call is `r.Status().Update`. -/
def Call.isStatusUpdate : Call → Bool
  | .StatusUpdate _ => true
  | _ => false

/-! ## The library call `ctrl.SetControllerReference` -/

/-- Go `schema.GroupVersionKind`. -/
structure GroupVersionKind where
  Group : String
  Version : String
  Kind : String
  deriving DecidableEq

/-- Go `runtime.Scheme`, as far as the pass uses it: the kind registered for the
`NginxOperator` type, if any. -/
structure Scheme where
  NginxOperatorKind : Option GroupVersionKind
  deriving DecidableEq

/-- Library `controllerutil.referSameObject`: same group, kind and name. -/
def referSameObject (a b : OwnerReference) : Bool :=
  decide (a.Group = b.Group) && decide (a.Kind = b.Kind) && decide (a.Name = b.Name)

/-- Library `metav1.GetControllerOf`: the first owner reference flagged as controller. -/
def GetControllerOf (refs : List OwnerReference) : Option OwnerReference :=
  refs.find? (fun ref => decide (ref.Controller = some true))

/-- Library `controllerutil.upsertOwnerRef`: overwrite the first reference to the
same object, or append. -/
def upsertOwnerRef (ref : OwnerReference) : List OwnerReference → List OwnerReference
  | [] => [ref]
  | r :: rs => if referSameObject r ref then ref :: rs else r :: upsertOwnerRef ref rs

/-- Library `controllerutil.validateOwner`: a namespaced owner needs a dependent
in the same namespace. -/
def validateOwner (owner : NginxOperator) (controlled : Deployment) : Option Err :=
  if owner.Namespace ≠ "" then
    if controlled.Namespace = "" then some .invalidOwner
    else if owner.Namespace ≠ controlled.Namespace then some .invalidOwner
    else none
  else none

/-- Library `ctrl.SetControllerReference(owner, controlled, scheme)`: the owner
references of `controlled` afterwards, and the returned error. Every error is
returned before the references are touched. -/
def SetControllerReference (scheme : Scheme) (owner : NginxOperator)
    (controlled : Deployment) : List OwnerReference × Option Err :=
  match validateOwner owner controlled with
  | some err => (controlled.OwnerReferences, some err)
  | none =>
    match scheme.NginxOperatorKind with
    | none => (controlled.OwnerReferences, some (.other "no kind is registered for the type"))
    | some gvk =>
      let ref : OwnerReference :=
        { Group := gvk.Group, Version := gvk.Version, Kind := gvk.Kind,
          Name := owner.Name, UID := owner.UID,
          Controller := some true, BlockOwnerDeletion := some true }
      match GetControllerOf controlled.OwnerReferences with
      | some existing =>
        if referSameObject existing ref then
          (upsertOwnerRef ref controlled.OwnerReferences, none)
        else
          (controlled.OwnerReferences, some .alreadyOwned)
      | none => (upsertOwnerRef ref controlled.OwnerReferences, none)

/-! ## A reference object store

An in-memory store with the contract of the object store: `get` by namespace
and name, `list` by namespace and labels, `create`, `update` (full replace) and
`updateStatus` (replaces the status only). -/

/-- The objects held by the in-memory store. -/
structure Store where
  operators : List NginxOperator
  deployments : List Deployment
  pods : List Pod
  deriving DecidableEq

/-- The operator has this identity. -/
def NginxOperator.hasKey (key : NamespacedName) (o : NginxOperator) : Bool :=
  decide (o.Namespace = key.Namespace) && decide (o.Name = key.Name)

/-- The deployment has this identity. -/
def Deployment.hasKey (key : NamespacedName) (d : Deployment) : Bool :=
  decide (d.Namespace = key.Namespace) && decide (d.Name = key.Name)

/-- The identity of a deployment. -/
def Deployment.key (d : Deployment) : NamespacedName := ⟨d.Namespace, d.Name⟩

/-- The identity of an operator resource. -/
def NginxOperator.key (o : NginxOperator) : NamespacedName := ⟨o.Namespace, o.Name⟩

/-- The pod is in the namespace and carries every requested label. -/
def Pod.selectedBy (ns : String) (labels : List (String × String)) (pod : Pod) : Bool :=
  decide (pod.Namespace = ns) && labels.all (fun kv => decide (kv ∈ pod.Labels))

/-- Store `get` for the operator resource. -/
def Store.GetOperator (s : Store) (key : NamespacedName) : Except Err NginxOperator :=
  match s.operators.find? (NginxOperator.hasKey key) with
  | some o => .ok o
  | none => .error .notFound

/-- Store `get` for the deployment. -/
def Store.GetDeployment (s : Store) (key : NamespacedName) : Except Err Deployment :=
  match s.deployments.find? (Deployment.hasKey key) with
  | some d => .ok d
  | none => .error .notFound

/-- Store `create`: refused when an object with the identity exists. -/
def Store.Create (s : Store) (d : Deployment) : Except Err (Store × Deployment) :=
  if s.deployments.any (Deployment.hasKey d.key) then .error .alreadyExists
  else .ok ({ s with deployments := s.deployments ++ [d] }, d)

/-- Store `update`: the stored object is replaced by the submitted one. -/
def Store.Update (s : Store) (d : Deployment) : Except Err (Store × Deployment) :=
  if s.deployments.any (Deployment.hasKey d.key) then
    .ok ({ s with deployments :=
            s.deployments.map (fun x => if Deployment.hasKey d.key x then d else x) }, d)
  else .error .notFound

/-- Store `list` of pods by namespace and labels, in stored order. -/
def Store.ListPods (s : Store) (ns : String) (labels : List (String × String)) :
    Except Err (List Pod) :=
  .ok (s.pods.filter (Pod.selectedBy ns labels))

/-- Store `updateStatus`: only the status of the stored resource is replaced. -/
def Store.StatusUpdate (s : Store) (o : NginxOperator) : Except Err Store :=
  if s.operators.any (NginxOperator.hasKey o.key) then
    .ok { s with operators :=
            s.operators.map (fun x =>
              if NginxOperator.hasKey o.key x then { x with Status := o.Status } else x) }
  else .error .notFound

/-- The reconciler wired to the in-memory store, a scheme and a template. -/
def storeReconciler (scheme : Scheme) (template : Deployment) : NginxOperatorReconciler Store where
  GetOperator := Store.GetOperator
  GetDeployment := Store.GetDeployment
  Create := Store.Create
  Update := Store.Update
  ListPods := Store.ListPods
  StatusUpdate := Store.StatusUpdate
  SetControllerReference := SetControllerReference scheme
  GetDeploymentFromFile := fun _ => template

/-! ## Concrete objects -/

/-- The scheme with the operator kind registered. -/
def exScheme : Scheme :=
  { NginxOperatorKind := some ⟨"operator.example.com", "v1alpha1", "NginxOperator"⟩ }

/-- A workload template with one container exposing port 80. -/
def exTemplate : Deployment :=
  { Namespace := "", Name := "nginx", OwnerReferences := [],
    Spec :=
      { Replicas := some 1,
        Selector := some ⟨[("app", "nginx")]⟩,
        Template :=
          { Labels := [("app", "nginx")],
            Spec := { Containers := [⟨"nginx", "nginx:latest", [⟨"http", 80⟩]⟩] } } } }

/-- The identity `a/x`. -/
def exReq : Request := ⟨⟨"a", "x"⟩⟩

/-- The desired state `a/x` with port 8080 and three requested replicas. -/
def exOperator : NginxOperator :=
  { Namespace := "a", Name := "x", UID := "uid-1",
    Spec := { Port := some 8080, Replicas := some 3 },
    Status := { Nodes := ["stale"] } }

/-- A pod of the workload in namespace `a`. -/
def exPod (name : String) (phase : PodPhase) : Pod :=
  { Namespace := "a", Name := name, Labels := [("app", "nginx")], Status := ⟨phase⟩ }

/-- A store holding the desired state and no workload. -/
def exStoreFresh : Store :=
  { operators := [exOperator], deployments := [], pods := [] }

/-- The store reconciler with the registered scheme and the one-container template. -/
def exReconciler : NginxOperatorReconciler Store := storeReconciler exScheme exTemplate

/-- The workload `a/x` as an earlier pass could have left it, still on port 80. -/
def exDeployment : Deployment := { exTemplate with Namespace := "a", Name := "x" }

/-- A store holding the desired state, its workload from an earlier pass, and
three pods with phases running, running, pending. -/
def exStoreRunning : Store :=
  { operators := [exOperator],
    deployments := [exDeployment],
    pods := [exPod "x-1" PodRunning, exPod "x-2" PodRunning, exPod "x-3" PodPending] }

/-- The desired state `a/x` without a port. -/
def exOperatorNoPort : NginxOperator :=
  { exOperator with Spec := { Port := none, Replicas := none } }

/-- A store holding the port-less desired state and no workload. -/
def exStoreNoPort : Store :=
  { operators := [exOperatorNoPort], deployments := [], pods := [] }

/-- The workload `a/x` as it exists in the store, serving on port 8080 while the
template serves on port 80. -/
def exDeployment8080 : Deployment :=
  { exDeployment with
    Spec := { exDeployment.Spec with
      Template := { exDeployment.Spec.Template with
        Spec := { Containers := [⟨"nginx", "nginx:latest", [⟨"http", 8080⟩]⟩] } } } }

/-- A store holding the port-less desired state and its workload on port 8080. -/
def exStoreNoPortExisting : Store :=
  { operators := [exOperatorNoPort], deployments := [exDeployment8080], pods := [] }

/-- A store without the desired state `a/x`. -/
def exStoreDeleted : Store :=
  { operators := [], deployments := [exDeployment],
    pods := [exPod "x-1" PodRunning] }

/-- The condition of the port override in the words of the specification: the
workload has at least one container whose port list has at least one entry. -/
def hasContainerWithPort (deployment : Deployment) : Bool :=
  deployment.Spec.Template.Spec.Containers.any (fun c => !c.Ports.isEmpty)

/-- A workload whose first container declares no port and whose second one does. -/
def exSidecarTemplate : Deployment :=
  { exTemplate with
    Spec := { exTemplate.Spec with
      Template := { exTemplate.Spec.Template with
        Spec := { Containers :=
          [⟨"proxy", "envoy:latest", []⟩, ⟨"nginx", "nginx:latest", [⟨"http", 80⟩]⟩] } } } }

/-- A workload template without containers. -/
def exEmptyTemplate : Deployment :=
  { exTemplate with
    Spec := { exTemplate.Spec with
      Template := { exTemplate.Spec.Template with Spec := { Containers := [] } } } }

/-- A workload template with a container and a port but no label selector. -/
def exTemplateNoSelector : Deployment :=
  { exTemplate with Spec := { exTemplate.Spec with Selector := none } }

/-- An owner reference to a controller other than the desired state. -/
def exForeignOwner : OwnerReference :=
  { Group := "apps.example.org", Version := "v1", Kind := "Release", Name := "web",
    UID := "uid-9", Controller := some true, BlockOwnerDeletion := some true }

/-- The workload `a/x`, already controlled by another owner. -/
def exOwnedDeployment : Deployment :=
  { exTemplate with Namespace := "a", Name := "x", OwnerReferences := [exForeignOwner] }

/-- The owned workload `a/x` with the overrides of lines 89-98 applied, as it
reaches line 99 and as it leaves it. -/
def exOwnedSubmitted : Deployment :=
  { exOwnedDeployment with
    Spec := { exOwnedDeployment.Spec with
      Replicas := some 5,
      Template := { exOwnedDeployment.Spec.Template with
        Spec := { Containers := [⟨"nginx", "nginx:latest", [⟨"http", 8080⟩]⟩] } } } }

/-- A store in which the workload `a/x` is controlled by another owner. -/
def exStoreOwned : Store :=
  { operators := [exOperator], deployments := [exOwnedDeployment], pods := [] }

/-- The store reconciler with a failing lookup of the desired state. -/
def exGetOperatorFails : NginxOperatorReconciler Store :=
  { storeReconciler exScheme exTemplate with GetOperator := fun _ _ => .error .conflict }

/-- The store reconciler with a failing lookup of the workload. -/
def exGetDeploymentFails : NginxOperatorReconciler Store :=
  { storeReconciler exScheme exTemplate with
    GetDeployment := fun _ _ => .error (.other "timeout") }

/-- The store reconciler with a failing create. -/
def exCreateFails : NginxOperatorReconciler Store :=
  { storeReconciler exScheme exTemplate with Create := fun _ _ => .error .alreadyExists }

/-- The store reconciler with a failing listing. -/
def exListFails : NginxOperatorReconciler Store :=
  { storeReconciler exScheme exTemplate with ListPods := fun _ _ _ => .error (.other "timeout") }

/-- The store reconciler with a failing status update. -/
def exStatusUpdateFails : NginxOperatorReconciler Store :=
  { storeReconciler exScheme exTemplate with StatusUpdate := fun _ _ => .error .conflict }

/-- The reconciler that differs only in reporting no error from
`SetControllerReference`. -/
def silenceOwnerError {σ : Type} (r : NginxOperatorReconciler σ) : NginxOperatorReconciler σ :=
  { r with SetControllerReference := fun owner controlled =>
      ((r.SetControllerReference owner controlled).1, none) }

/-! ## Lemmas on the steps of the pass -/

theorem activePodsLoop_eq (acc : List String) (items : List Pod) :
    activePodsLoop acc items =
      acc ++ (items.filter (fun pod => decide (pod.Status.Phase = PodRunning))).map Pod.Name := by
  induction items generalizing acc with
  | nil => simp [activePodsLoop]
  | cons pod rest ih =>
    by_cases h : pod.Status.Phase = PodRunning
    · simp [activePodsLoop, h, ih]
    · simp [activePodsLoop, h, ih]

theorem activePods_eq (items : List Pod) :
    activePods items =
      (items.filter (fun pod => decide (pod.Status.Phase = PodRunning))).map Pod.Name := by
  simp [activePods, activePodsLoop_eq]

theorem setContainerPort_ok (deployment d : Deployment) (port : Int)
    (h : setContainerPort deployment port = .ok d) :
    firstPort d = some port ∧ d.Namespace = deployment.Namespace ∧
      d.Name = deployment.Name ∧ d.OwnerReferences = deployment.OwnerReferences ∧
      d.Spec.Replicas = deployment.Spec.Replicas ∧
      d.Spec.Selector = deployment.Spec.Selector := by
  unfold setContainerPort at h
  split at h
  · cases h
  · rename_i c cs hc
    split at h
    · cases h
    · rename_i p ps hp
      cases h
      simp [firstPort]

theorem setContainerPort_error (deployment : Deployment) (port : Int) :
    (firstPort deployment = none → setContainerPort deployment port = .error .indexOutOfRange) ∧
    (firstPort deployment ≠ none → ∃ d, setContainerPort deployment port = .ok d) := by
  unfold setContainerPort firstPort
  split
  · simp
  · split <;> simp

theorem setContainerPort_idem (deployment d : Deployment) (port : Int)
    (refs : List OwnerReference)
    (h : setContainerPort deployment port = .ok d) :
    setContainerPort { d with OwnerReferences := refs } port =
      .ok { d with OwnerReferences := refs } := by
  unfold setContainerPort at h
  split at h
  · cases h
  · split at h
    · cases h
    · cases h
      simp [setContainerPort]

theorem setDeploymentFields_ok {σ : Type} (r : NginxOperatorReconciler σ) (req : Request)
    (operatorCR : NginxOperator) (base d : Deployment)
    (h : setDeploymentFields r req operatorCR base = .ok d) :
    d.Namespace = req.Namespace ∧ d.Name = req.Name ∧ d.Spec.Replicas = some 5 ∧
      d.Spec.Selector = base.Spec.Selector ∧
      (∀ P, operatorCR.Spec.Port = some P → firstPort d = some P) ∧
      (operatorCR.Spec.Port = none → d.Spec.Template = base.Spec.Template) := by
  unfold setDeploymentFields at h
  simp only at h
  split at h
  · cases h
  · rename_i d0 h0
    cases h
    unfold overridePort at h0
    split at h0
    · rename_i P hP
      obtain ⟨h1, h2, h3, _, h5, h6⟩ := setContainerPort_ok _ _ _ h0
      refine ⟨h2, h3, h5, h6, ?_, ?_⟩
      · intro Q hQ
        rw [hP] at hQ
        cases hQ
        simpa [firstPort] using h1
      · intro hn
        rw [hP] at hn
        cases hn
    · rename_i hP
      cases h0
      refine ⟨rfl, rfl, rfl, rfl, ?_, ?_⟩
      · intro Q hQ
        rw [hP] at hQ
        cases hQ
      · intro _
        rfl

theorem fetchDeployment_notFound {σ : Type} (r : NginxOperatorReconciler σ) (req : Request)
    (s : σ) (err : Err) (hdep : r.GetDeployment s req.NamespacedName = .error err)
    (hnf : errors.IsNotFound err = true) :
    fetchDeployment r req s =
      .ok (true, r.GetDeploymentFromFile "manifests/nginx_deployment.yaml") := by
  simp [fetchDeployment, hdep, hnf]

theorem fetchDeployment_found {σ : Type} (r : NginxOperatorReconciler σ) (req : Request)
    (s : σ) (existing : Deployment)
    (hdep : r.GetDeployment s req.NamespacedName = .ok existing) :
    fetchDeployment r req s = .ok (false, existing) := by
  simp [fetchDeployment, hdep]

theorem fetchDeployment_error {σ : Type} (r : NginxOperatorReconciler σ) (req : Request)
    (s : σ) (err : Err) (hdep : r.GetDeployment s req.NamespacedName = .error err)
    (hnf : errors.IsNotFound err = false) :
    fetchDeployment r req s = .error err := by
  simp [fetchDeployment, hdep, hnf]

theorem Reconcile_done_inv {σ : Type} (r : NginxOperatorReconciler σ) (req : Request) (s : σ)
    (operatorCR : NginxOperator)
    (hop : r.GetOperator s req.NamespacedName = .ok operatorCR)
    (hdone : (Reconcile r req s).outcome = .done) :
    ∃ create base d s1 d1 selector podList s2,
      fetchDeployment r req s = .ok (create, base) ∧
      setDeploymentFields r req operatorCR base = .ok d ∧
      writeDeployment r s create d = .ok (s1, d1) ∧
      d1.Spec.Selector = some selector ∧
      r.ListPods s1 req.Namespace selector.MatchLabels = .ok podList ∧
      r.StatusUpdate s1 { operatorCR with Status := { Nodes := activePods podList } } = .ok s2 ∧
      Reconcile r req s =
        ⟨.done,
          [.GetOperator req.NamespacedName, .GetDeployment req.NamespacedName,
            writeCall create d, .ListPods req.Namespace selector.MatchLabels,
            .StatusUpdate { operatorCR with Status := { Nodes := activePods podList } }], s2⟩ := by
  unfold Reconcile at hdone
  rw [hop] at hdone
  simp only at hdone
  cases hf : fetchDeployment r req s with
  | error err => rw [hf] at hdone; simp at hdone
  | ok cb =>
    obtain ⟨create, base⟩ := cb
    rw [hf] at hdone
    simp only at hdone
    cases hd : setDeploymentFields r req operatorCR base with
    | error p => rw [hd] at hdone; simp at hdone
    | ok d =>
      rw [hd] at hdone
      simp only at hdone
      cases hw : writeDeployment r s create d with
      | error err => rw [hw] at hdone; simp at hdone
      | ok sd =>
        obtain ⟨s1, d1⟩ := sd
        rw [hw] at hdone
        simp only at hdone
        cases hsel : d1.Spec.Selector with
        | none => rw [hsel] at hdone; simp at hdone
        | some selector =>
          rw [hsel] at hdone
          simp only at hdone
          cases hl : r.ListPods s1 req.Namespace selector.MatchLabels with
          | error err => rw [hl] at hdone; simp at hdone
          | ok podList =>
            rw [hl] at hdone
            simp only at hdone
            cases hs : r.StatusUpdate s1
                { operatorCR with Status := { Nodes := activePods podList } } with
            | error err => rw [hs] at hdone; simp at hdone
            | ok s2 =>
              refine ⟨create, base, d, s1, d1, selector, podList, s2, rfl, hd, hw, hsel, hl,
                hs, ?_⟩
              simp only [Reconcile, hop, hf, hd, hw, hsel, hl, hs]

theorem Reconcile_list_error {σ : Type} (r : NginxOperatorReconciler σ) (req : Request)
    (s : σ) (operatorCR : NginxOperator) (create : Bool) (base d : Deployment) (s1 : σ)
    (d1 : Deployment) (selector : LabelSelector) (err : Err)
    (hop : r.GetOperator s req.NamespacedName = .ok operatorCR)
    (hf : fetchDeployment r req s = .ok (create, base))
    (hd : setDeploymentFields r req operatorCR base = .ok d)
    (hw : writeDeployment r s create d = .ok (s1, d1))
    (hsel : d1.Spec.Selector = some selector)
    (hl : r.ListPods s1 req.Namespace selector.MatchLabels = .error err) :
    Reconcile r req s =
      ⟨.failed err,
        [.GetOperator req.NamespacedName, .GetDeployment req.NamespacedName,
          writeCall create d, .ListPods req.Namespace selector.MatchLabels], s1⟩ := by
  simp only [Reconcile, hop, hf, hd, hw, hsel, hl]

theorem Reconcile_status_error {σ : Type} (r : NginxOperatorReconciler σ) (req : Request)
    (s : σ) (operatorCR : NginxOperator) (create : Bool) (base d : Deployment) (s1 : σ)
    (d1 : Deployment) (selector : LabelSelector) (podList : List Pod) (err : Err)
    (hop : r.GetOperator s req.NamespacedName = .ok operatorCR)
    (hf : fetchDeployment r req s = .ok (create, base))
    (hd : setDeploymentFields r req operatorCR base = .ok d)
    (hw : writeDeployment r s create d = .ok (s1, d1))
    (hsel : d1.Spec.Selector = some selector)
    (hl : r.ListPods s1 req.Namespace selector.MatchLabels = .ok podList)
    (hs : r.StatusUpdate s1 { operatorCR with Status := { Nodes := activePods podList } } =
      .error err) :
    Reconcile r req s =
      ⟨.failed err,
        [.GetOperator req.NamespacedName, .GetDeployment req.NamespacedName,
          writeCall create d, .ListPods req.Namespace selector.MatchLabels,
          .StatusUpdate { operatorCR with Status := { Nodes := activePods podList } }], s1⟩ := by
  simp only [Reconcile, hop, hf, hd, hw, hsel, hl, hs]

theorem Reconcile_done_of {σ : Type} (r : NginxOperatorReconciler σ) (req : Request)
    (s : σ) (operatorCR : NginxOperator) (create : Bool) (base d : Deployment) (s1 : σ)
    (d1 : Deployment) (selector : LabelSelector) (podList : List Pod) (s2 : σ)
    (hop : r.GetOperator s req.NamespacedName = .ok operatorCR)
    (hf : fetchDeployment r req s = .ok (create, base))
    (hd : setDeploymentFields r req operatorCR base = .ok d)
    (hw : writeDeployment r s create d = .ok (s1, d1))
    (hsel : d1.Spec.Selector = some selector)
    (hl : r.ListPods s1 req.Namespace selector.MatchLabels = .ok podList)
    (hs : r.StatusUpdate s1 { operatorCR with Status := { Nodes := activePods podList } } =
      .ok s2) :
    Reconcile r req s =
      ⟨.done,
        [.GetOperator req.NamespacedName, .GetDeployment req.NamespacedName,
          writeCall create d, .ListPods req.Namespace selector.MatchLabels,
          .StatusUpdate { operatorCR with Status := { Nodes := activePods podList } }], s2⟩ := by
  simp only [Reconcile, hop, hf, hd, hw, hsel, hl, hs]

/-! ## Lemmas on the owner reference -/

theorem referSameObject_self (a : OwnerReference) : referSameObject a a = true := by
  simp [referSameObject]

theorem upsertOwnerRef_idem (ref : OwnerReference) (refs : List OwnerReference) :
    upsertOwnerRef ref (upsertOwnerRef ref refs) = upsertOwnerRef ref refs := by
  induction refs with
  | nil => simp [upsertOwnerRef, referSameObject_self]
  | cons r rs ih =>
    by_cases h : referSameObject r ref = true
    · simp [upsertOwnerRef, h, referSameObject_self]
    · simp [upsertOwnerRef, h, ih]

theorem SetControllerReference_idem (scheme : Scheme) (owner owner2 : NginxOperator)
    (c c2 : Deployment)
    (hns : owner2.Namespace = owner.Namespace) (hname : owner2.Name = owner.Name)
    (huid : owner2.UID = owner.UID) (hcns : c2.Namespace = c.Namespace)
    (hrefs : c2.OwnerReferences = (SetControllerReference scheme owner c).1) :
    (SetControllerReference scheme owner2 c2).1 = c2.OwnerReferences := by
  have hv : validateOwner owner2 c2 = validateOwner owner c := by
    simp [validateOwner, hns, hcns]
  unfold SetControllerReference at hrefs ⊢
  rw [hv]
  simp only [hname, huid]
  cases hvo : validateOwner owner c with
  | some err => rfl
  | none =>
    rw [hvo] at hrefs
    simp only at hrefs ⊢
    cases hk : scheme.NginxOperatorKind with
    | none => rfl
    | some gvk =>
      rw [hk] at hrefs
      simp only at hrefs ⊢
      cases hg : GetControllerOf c.OwnerReferences with
      | none =>
        rw [hg] at hrefs
        simp only at hrefs
        split
        · split
          · simp only
            rw [hrefs, upsertOwnerRef_idem]
          · rfl
        · simp only
          rw [hrefs, upsertOwnerRef_idem]
      | some e =>
        rw [hg] at hrefs
        simp only at hrefs
        by_cases hsame : referSameObject e
            { Group := gvk.Group, Version := gvk.Version, Kind := gvk.Kind,
              Name := owner.Name, UID := owner.UID,
              Controller := some true, BlockOwnerDeletion := some true } = true
        · rw [if_pos hsame] at hrefs
          simp only at hrefs
          split
          · split
            · simp only
              rw [hrefs, upsertOwnerRef_idem]
            · rfl
          · simp only
            rw [hrefs, upsertOwnerRef_idem]
        · rw [if_neg hsame] at hrefs
          simp only at hrefs
          rw [hrefs, hg]
          simp only [if_neg hsame]

theorem setDeploymentFields_idem (scheme : Scheme) (template : Deployment) (req : Request)
    (cr cr2 : NginxOperator) (base d : Deployment)
    (hns : cr2.Namespace = cr.Namespace) (hname : cr2.Name = cr.Name)
    (huid : cr2.UID = cr.UID) (hspec : cr2.Spec = cr.Spec)
    (hd : setDeploymentFields (storeReconciler scheme template) req cr base = .ok d) :
    setDeploymentFields (storeReconciler scheme template) req cr2 d = .ok d := by
  unfold setDeploymentFields at hd
  simp only at hd
  split at hd
  · cases hd
  · rename_i d0 h0
    cases hd
    have hfacts : d0.Namespace = req.Namespace ∧ d0.Name = req.Name ∧
        d0.Spec.Replicas = some 5 ∧
        ∀ refs, overridePort cr2 { d0 with OwnerReferences := refs } =
          .ok { d0 with OwnerReferences := refs } := by
      unfold overridePort at h0 ⊢
      rw [hspec]
      split at h0
      · rename_i P hP
        obtain ⟨_, h2, h3, _, h5, _⟩ := setContainerPort_ok _ _ _ h0
        refine ⟨h2, h3, h5, fun refs => ?_⟩
        exact setContainerPort_idem _ _ _ refs h0
      · rename_i hP
        cases h0
        refine ⟨rfl, rfl, rfl, fun refs => ?_⟩
        rfl
    obtain ⟨h1, h2, h3, h4⟩ := hfacts
    obtain ⟨ns, name, refs, ⟨repl, sel, tpl⟩⟩ := d0
    simp only at h1 h2 h3
    subst h1 h2 h3
    unfold setDeploymentFields
    simp only
    rw [h4]
    simp only
    rw [show (storeReconciler scheme template).SetControllerReference =
      SetControllerReference scheme from rfl]
    have hidem := SetControllerReference_idem scheme cr cr2
      ⟨req.Namespace, req.Name, refs, ⟨some 5, sel, tpl⟩⟩
      ⟨req.Namespace, req.Name,
        (SetControllerReference scheme cr
          ⟨req.Namespace, req.Name, refs, ⟨some 5, sel, tpl⟩⟩).1, ⟨some 5, sel, tpl⟩⟩
      hns hname huid rfl rfl
    simp only at hidem
    rw [hidem]

/-! ## Lemmas on the reference object store -/

theorem find?_map_of_preserving {α : Type} (p : α → Bool) (f : α → α)
    (hpf : ∀ x, p (f x) = p x) (l : List α) :
    (l.map f).find? p = (l.find? p).map f := by
  induction l with
  | nil => rfl
  | cons x xs ih =>
    simp only [List.map_cons, List.find?_cons, hpf]
    cases p x <;> simp [ih]

theorem any_map_of_preserving {α : Type} (p : α → Bool) (f : α → α)
    (hpf : ∀ x, p (f x) = p x) (l : List α) :
    (l.map f).any p = l.any p := by
  induction l with
  | nil => rfl
  | cons x xs ih => simp [hpf, ih]

theorem map_eq_self_of_fixed {α : Type} (f : α → α) (l : List α)
    (h : ∀ x ∈ l, f x = x) : l.map f = l := by
  induction l with
  | nil => rfl
  | cons x xs ih =>
    simp only [List.map_cons]
    rw [h x (List.mem_cons_self _ _), ih (fun y hy => h y (List.mem_cons_of_mem _ hy))]

theorem find?_append_singleton {α : Type} (p : α → Bool) (d : α) (l : List α)
    (hl : l.any p = false) (hd : p d = true) : (l ++ [d]).find? p = some d := by
  induction l with
  | nil => simp [hd]
  | cons x xs ih =>
    simp only [List.any_cons, Bool.or_eq_false_iff] at hl
    simp [List.find?_cons, hl.1, ih hl.2]

theorem map_replace_append_singleton {α : Type} (p : α → Bool) (d : α) (l : List α)
    (hl : l.any p = false) (hd : p d = true) :
    (l ++ [d]).map (fun x => if p x then d else x) = l ++ [d] := by
  induction l with
  | nil => simp [hd]
  | cons x xs ih =>
    simp only [List.any_cons, Bool.or_eq_false_iff] at hl
    simp only [List.cons_append, List.map_cons, ih hl.2, hl.1]
    simp

theorem find?_map_replace {α : Type} (p : α → Bool) (d : α) (l : List α)
    (hl : l.any p = true) (hd : p d = true) :
    (l.map (fun x => if p x then d else x)).find? p = some d := by
  induction l with
  | nil => simp at hl
  | cons x xs ih =>
    by_cases hx : p x = true
    · simp [List.find?_cons, hx, hd]
    · simp only [List.any_cons, hx, Bool.false_or] at hl
      simp [List.find?_cons, hx, ih hl]

theorem map_replace_idem {α : Type} (p : α → Bool) (d : α) (l : List α) (hd : p d = true) :
    (l.map (fun x => if p x then d else x)).map (fun x => if p x then d else x) =
      l.map (fun x => if p x then d else x) := by
  induction l with
  | nil => rfl
  | cons x xs ih =>
    by_cases hx : p x = true
    · simp [hx, hd, ih]
    · simp [hx, ih]

theorem Deployment.hasKey_key (d : Deployment) : Deployment.hasKey d.key d = true := by
  simp [Deployment.hasKey, Deployment.key]

theorem writeDeployment_store (scheme : Scheme) (template : Deployment) (s s1 : Store)
    (create : Bool) (d d1 : Deployment)
    (hw : writeDeployment (storeReconciler scheme template) s create d = .ok (s1, d1)) :
    d1 = d ∧ s1.operators = s.operators ∧ s1.pods = s.pods ∧
      s1.deployments.find? (Deployment.hasKey d.key) = some d ∧
      s1.deployments.any (Deployment.hasKey d.key) = true ∧
      s1.deployments.map (fun x => if Deployment.hasKey d.key x then d else x) =
        s1.deployments := by
  have hk := Deployment.hasKey_key d
  cases create with
  | true =>
    have hw2 : Store.Create s d = .ok (s1, d1) := hw
    unfold Store.Create at hw2
    by_cases hany : s.deployments.any (Deployment.hasKey d.key) = true
    · rw [if_pos hany] at hw2
      cases hw2
    · rw [if_neg hany] at hw2
      simp only [Bool.not_eq_true] at hany
      cases hw2
      refine ⟨rfl, rfl, rfl, ?_, ?_, ?_⟩
      · exact find?_append_singleton _ d _ hany hk
      · simp [hk]
      · exact map_replace_append_singleton _ d _ hany hk
  | false =>
    have hw2 : Store.Update s d = .ok (s1, d1) := hw
    unfold Store.Update at hw2
    by_cases hany : s.deployments.any (Deployment.hasKey d.key) = true
    · rw [if_pos hany] at hw2
      cases hw2
      refine ⟨rfl, rfl, rfl, ?_, ?_, ?_⟩
      · exact find?_map_replace _ d _ hany hk
      · rw [any_map_of_preserving _ _ _ _]
        · exact hany
        · intro x
          by_cases hx : Deployment.hasKey d.key x = true
          · simp [hx, hk]
          · simp [hx]
      · exact map_replace_idem _ d _ hk
    · rw [if_neg hany] at hw2
      cases hw2

theorem NginxOperator.hasKey_setStatus (key : NamespacedName) (st : NginxOperatorStatus)
    (x : NginxOperator) :
    NginxOperator.hasKey key
        (if NginxOperator.hasKey key x then { x with Status := st } else x) =
      NginxOperator.hasKey key x := by
  by_cases hx : NginxOperator.hasKey key x = true
  · rw [if_pos hx]
    simp [NginxOperator.hasKey] at hx ⊢
  · rw [if_neg hx]

theorem map_setStatus_idem (key : NamespacedName) (st : NginxOperatorStatus)
    (l : List NginxOperator) :
    (l.map (fun x => if NginxOperator.hasKey key x then { x with Status := st } else x)).map
        (fun x => if NginxOperator.hasKey key x then { x with Status := st } else x) =
      l.map (fun x => if NginxOperator.hasKey key x then { x with Status := st } else x) := by
  apply map_eq_self_of_fixed
  intro y hy
  obtain ⟨x, _, rfl⟩ := List.mem_map.1 hy
  by_cases hx : NginxOperator.hasKey key x = true
  · have hx2 : NginxOperator.hasKey key { x with Status := st } = true := by
      simpa [NginxOperator.hasKey] using hx
    simp only [if_pos hx, if_pos hx2]
  · simp only [if_neg hx]

theorem Reconcile_store_again (scheme : Scheme) (template : Deployment) (req : Request)
    (s : Store) (cr : NginxOperator) (create : Bool) (base d : Deployment) (s1 : Store)
    (d1 : Deployment) (selector : LabelSelector) (podList : List Pod) (s2 : Store)
    (hop : (storeReconciler scheme template).GetOperator s req.NamespacedName = .ok cr)
    (hd : setDeploymentFields (storeReconciler scheme template) req cr base = .ok d)
    (hw : writeDeployment (storeReconciler scheme template) s create d = .ok (s1, d1))
    (hsel : d1.Spec.Selector = some selector)
    (hl : (storeReconciler scheme template).ListPods s1 req.Namespace selector.MatchLabels =
      .ok podList)
    (hs : (storeReconciler scheme template).StatusUpdate s1
      { cr with Status := { Nodes := activePods podList } } = .ok s2) :
    (Reconcile (storeReconciler scheme template) req s2).outcome = .done ∧
      (Reconcile (storeReconciler scheme template) req s2).store = s2 := by
  -- the desired state found by the first pass has the requested identity
  have hfindcr : s.operators.find? (NginxOperator.hasKey req.NamespacedName) = some cr := by
    have h : Store.GetOperator s req.NamespacedName = .ok cr := hop
    unfold Store.GetOperator at h
    split at h
    · rename_i o ho
      cases h
      exact ho
    · cases h
  have hkeycr : NginxOperator.hasKey req.NamespacedName cr = true := List.find?_some hfindcr
  have hcrkey : ∀ st : NginxOperatorStatus,
      NginxOperator.key { cr with Status := st } = req.NamespacedName := by
    intro st
    simp only [NginxOperator.hasKey, Bool.and_eq_true, decide_eq_true_eq] at hkeycr
    simp [NginxOperator.key, hkeycr.1, hkeycr.2]
  -- the workload written by the first pass has the requested identity
  obtain ⟨hdns, hdname, _, _, _, _⟩ :=
    setDeploymentFields_ok (storeReconciler scheme template) req cr base d hd
  have hdkey : d.key = req.NamespacedName := by
    simp [Deployment.key, hdns, hdname, Request.Namespace, Request.Name]
  obtain ⟨hd1, hops, hpods, hfind, hany, hmap⟩ :=
    writeDeployment_store scheme template s s1 create d d1 hw
  rw [hd1] at hsel
  rw [hdkey] at hfind hany hmap
  -- the store left by the status write
  have hs2 : Store.StatusUpdate s1 { cr with Status := { Nodes := activePods podList } } =
      .ok s2 := hs
  unfold Store.StatusUpdate at hs2
  rw [hcrkey] at hs2
  have hanycr : s1.operators.any (NginxOperator.hasKey req.NamespacedName) = true := by
    rw [hops]
    exact List.any_eq_true.2 ⟨cr, List.mem_of_find?_eq_some hfindcr, hkeycr⟩
  rw [if_pos hanycr] at hs2
  cases hs2
  have hl2 : Store.ListPods s1 req.Namespace selector.MatchLabels = .ok podList := hl
  -- the second pass, step by step
  have hopB : (storeReconciler scheme template).GetOperator
      { s1 with operators := s1.operators.map (fun x =>
          if NginxOperator.hasKey req.NamespacedName x then
            { x with Status := { Nodes := activePods podList } } else x) }
      req.NamespacedName = .ok { cr with Status := { Nodes := activePods podList } } := by
    show Store.GetOperator _ _ = _
    unfold Store.GetOperator
    simp only
    rw [find?_map_of_preserving _ _ (NginxOperator.hasKey_setStatus _ _), hops, hfindcr]
    simp only [Option.map_some', if_pos hkeycr]
  have hfB : fetchDeployment (storeReconciler scheme template) req
      { s1 with operators := s1.operators.map (fun x =>
          if NginxOperator.hasKey req.NamespacedName x then
            { x with Status := { Nodes := activePods podList } } else x) } =
      .ok (false, d) := by
    apply fetchDeployment_found
    show Store.GetDeployment _ _ = _
    unfold Store.GetDeployment
    simp only [hfind]
  have hdB : setDeploymentFields (storeReconciler scheme template) req
      { cr with Status := { Nodes := activePods podList } } d = .ok d :=
    setDeploymentFields_idem scheme template req cr _ base d rfl rfl rfl rfl hd
  have hwB : writeDeployment (storeReconciler scheme template)
      { s1 with operators := s1.operators.map (fun x =>
          if NginxOperator.hasKey req.NamespacedName x then
            { x with Status := { Nodes := activePods podList } } else x) } false d =
      .ok ({ s1 with operators := s1.operators.map (fun x =>
          if NginxOperator.hasKey req.NamespacedName x then
            { x with Status := { Nodes := activePods podList } } else x) }, d) := by
    show Store.Update _ _ = _
    unfold Store.Update
    simp only [hdkey, hany, if_true, hmap]
  have hlB : (storeReconciler scheme template).ListPods
      { s1 with operators := s1.operators.map (fun x =>
          if NginxOperator.hasKey req.NamespacedName x then
            { x with Status := { Nodes := activePods podList } } else x) }
      req.Namespace selector.MatchLabels = .ok podList := hl2
  have hsB : (storeReconciler scheme template).StatusUpdate
      { s1 with operators := s1.operators.map (fun x =>
          if NginxOperator.hasKey req.NamespacedName x then
            { x with Status := { Nodes := activePods podList } } else x) }
      { ({ cr with Status := { Nodes := activePods podList } } : NginxOperator) with
        Status := { Nodes := activePods podList } } =
      .ok { s1 with operators := s1.operators.map (fun x =>
          if NginxOperator.hasKey req.NamespacedName x then
            { x with Status := { Nodes := activePods podList } } else x) } := by
    show Store.StatusUpdate _ _ = _
    unfold Store.StatusUpdate
    simp only [hcrkey]
    rw [any_map_of_preserving _ _ (NginxOperator.hasKey_setStatus _ _), if_pos hanycr,
      map_setStatus_idem]
  have hrun := Reconcile_done_of (storeReconciler scheme template) req _ _ false d d _ d
    selector podList _ hopB hfB hdB hwB hsel hlB hsB
  rw [hrun]
  exact ⟨rfl, rfl⟩

/-! ## The claims -/

/-- C1: on a successful pass over an existing desired state, the status
submitted to the store is the fetched resource with `Status.Nodes` replaced by
the names of the listed pods whose phase is running, in listing order; it is
the only and last status write of the pass, and its nodes do not depend on the
nodes held before. -/
theorem C1_status_nodes_are_running_names {σ : Type} (r : NginxOperatorReconciler σ)
    (req : Request) (s : σ) (operatorCR : NginxOperator)
    (hop : r.GetOperator s req.NamespacedName = .ok operatorCR)
    (hdone : (Reconcile r req s).outcome = .done) :
    ∃ s1 labels podList written,
      Call.ListPods req.Namespace labels ∈ (Reconcile r req s).calls ∧
      r.ListPods s1 req.Namespace labels = .ok podList ∧
      (Reconcile r req s).calls.filter Call.isStatusUpdate = [.StatusUpdate written] ∧
      (Reconcile r req s).calls.getLast? = some (.StatusUpdate written) ∧
      r.StatusUpdate s1 written = .ok (Reconcile r req s).store ∧
      written.Status.Nodes =
        (podList.filter (fun pod => decide (pod.Status.Phase = PodRunning))).map Pod.Name ∧
      written = { operatorCR with Status := written.Status } := by
  obtain ⟨create, base, d, s1, d1, selector, podList, s2, _, _, _, _, hl, hs, hrun⟩ :=
    Reconcile_done_inv r req s operatorCR hop hdone
  refine ⟨s1, selector.MatchLabels, podList,
    { operatorCR with Status := { Nodes := activePods podList } }, ?_, hl, ?_, ?_, ?_, ?_, rfl⟩
  · rw [hrun]; simp
  · rw [hrun]; cases create <;> simp [writeCall, Call.isStatusUpdate]
  · rw [hrun]; simp
  · rw [hrun]; exact hs
  · exact activePods_eq podList

/-- C1 (witness): on the store with pods in phases running, running, pending
the pass succeeds and C1 applies to it. -/
theorem C1_status_nodes_are_running_names_witness :
    exReconciler.GetOperator exStoreRunning exReq.NamespacedName = .ok exOperator ∧
    (Reconcile exReconciler exReq exStoreRunning).outcome = .done ∧
    (Reconcile exReconciler exReq exStoreRunning).store.operators.map
      (fun o => o.Status.Nodes) = [["x-1", "x-2"]] ∧
    ∃ s1 labels podList written,
      Call.ListPods exReq.Namespace labels ∈ (Reconcile exReconciler exReq exStoreRunning).calls ∧
      exReconciler.ListPods s1 exReq.Namespace labels = .ok podList ∧
      (Reconcile exReconciler exReq exStoreRunning).calls.filter Call.isStatusUpdate =
        [.StatusUpdate written] ∧
      (Reconcile exReconciler exReq exStoreRunning).calls.getLast? =
        some (.StatusUpdate written) ∧
      exReconciler.StatusUpdate s1 written =
        .ok (Reconcile exReconciler exReq exStoreRunning).store ∧
      written.Status.Nodes =
        (podList.filter (fun pod => decide (pod.Status.Phase = PodRunning))).map Pod.Name ∧
      written = { exOperator with Status := written.Status } :=
  ⟨rfl, by decide, by decide,
    C1_status_nodes_are_running_names exReconciler exReq exStoreRunning exOperator rfl
      (by decide)⟩

/-- C2: when the desired state exists and the workload lookup reports not-found,
a successful pass has issued exactly one create and no update; the created
object carries the identity of the request, replica count 5 whatever the
desired state asks for, and the desired port as first port of the first
container when a port is specified. -/
theorem C2_absent_workload_is_created {σ : Type} (r : NginxOperatorReconciler σ)
    (req : Request) (s : σ) (operatorCR : NginxOperator) (err : Err)
    (hop : r.GetOperator s req.NamespacedName = .ok operatorCR)
    (hdep : r.GetDeployment s req.NamespacedName = .error err)
    (hnf : errors.IsNotFound err = true)
    (hdone : (Reconcile r req s).outcome = .done) :
    ∃ d s1 d1,
      r.Create s d = .ok (s1, d1) ∧
      (Reconcile r req s).calls.filter Call.isCreate = [.Create d] ∧
      (Reconcile r req s).calls.filter Call.isUpdate = [] ∧
      d.Namespace = req.Namespace ∧ d.Name = req.Name ∧
      d.Spec.Replicas = some 5 ∧
      (∀ P, operatorCR.Spec.Port = some P → firstPort d = some P) := by
  obtain ⟨create, base, d, s1, d1, selector, podList, s2, hf, hd, hw, _, _, _, hrun⟩ :=
    Reconcile_done_inv r req s operatorCR hop hdone
  rw [fetchDeployment_notFound r req s err hdep hnf] at hf
  cases hf
  obtain ⟨h1, h2, h3, _, h5, _⟩ := setDeploymentFields_ok r req operatorCR _ d hd
  refine ⟨d, s1, d1, ?_, ?_, ?_, h1, h2, h3, h5⟩
  · simpa [writeDeployment] using hw
  · rw [hrun]; simp [writeCall, Call.isCreate]
  · rw [hrun]; simp [writeCall, Call.isUpdate]

/-- C2 (witness): the fresh store holds the desired state `a/x` with port 8080
and no workload; the pass succeeds and C2 applies to it. -/
theorem C2_absent_workload_is_created_witness :
    exReconciler.GetOperator exStoreFresh exReq.NamespacedName = .ok exOperator ∧
    exReconciler.GetDeployment exStoreFresh exReq.NamespacedName = .error .notFound ∧
    errors.IsNotFound .notFound = true ∧
    (Reconcile exReconciler exReq exStoreFresh).outcome = .done ∧
    (Reconcile exReconciler exReq exStoreFresh).store.operators.map
      (fun o => o.Status.Nodes) = [[]] ∧
    ∃ d s1 d1,
      exReconciler.Create exStoreFresh d = .ok (s1, d1) ∧
      (Reconcile exReconciler exReq exStoreFresh).calls.filter Call.isCreate = [.Create d] ∧
      (Reconcile exReconciler exReq exStoreFresh).calls.filter Call.isUpdate = [] ∧
      d.Namespace = exReq.Namespace ∧ d.Name = exReq.Name ∧
      d.Spec.Replicas = some 5 ∧
      (∀ P, exOperator.Spec.Port = some P → firstPort d = some P) :=
  ⟨rfl, rfl, rfl, by decide, by decide,
    C2_absent_workload_is_created exReconciler exReq exStoreFresh exOperator .notFound
      rfl rfl rfl (by decide)⟩

/-- C3: when the desired state and the workload both exist, a successful pass
has issued exactly one update and no create; the update submits the whole
object (the existing workload with the overrides applied: identity of the
request, replica count 5, the desired port when one is specified), and the
store left by the pass is the one the update returned for that object, followed
by the status write. -/
theorem C3_existing_workload_is_updated {σ : Type} (r : NginxOperatorReconciler σ)
    (req : Request) (s : σ) (operatorCR : NginxOperator) (existing : Deployment)
    (hop : r.GetOperator s req.NamespacedName = .ok operatorCR)
    (hdep : r.GetDeployment s req.NamespacedName = .ok existing)
    (hdone : (Reconcile r req s).outcome = .done) :
    ∃ d s1 d1 written,
      setDeploymentFields r req operatorCR existing = .ok d ∧
      r.Update s d = .ok (s1, d1) ∧
      r.StatusUpdate s1 written = .ok (Reconcile r req s).store ∧
      (Reconcile r req s).calls.filter Call.isUpdate = [.Update d] ∧
      (Reconcile r req s).calls.filter Call.isCreate = [] ∧
      d.Namespace = req.Namespace ∧ d.Name = req.Name ∧
      d.Spec.Replicas = some 5 ∧
      (∀ P, operatorCR.Spec.Port = some P → firstPort d = some P) := by
  obtain ⟨create, base, d, s1, d1, selector, podList, s2, hf, hd, hw, _, _, hs, hrun⟩ :=
    Reconcile_done_inv r req s operatorCR hop hdone
  rw [fetchDeployment_found r req s existing hdep] at hf
  cases hf
  obtain ⟨h1, h2, h3, _, h5, _⟩ := setDeploymentFields_ok r req operatorCR _ d hd
  refine ⟨d, s1, d1, { operatorCR with Status := { Nodes := activePods podList } }, hd,
    ?_, ?_, ?_, ?_, h1, h2, h3, h5⟩
  · simpa [writeDeployment] using hw
  · rw [hrun]; exact hs
  · rw [hrun]; simp [writeCall, Call.isUpdate]
  · rw [hrun]; simp [writeCall, Call.isCreate]

/-- C3 (witness): the store holds the desired state and its workload; the pass
succeeds and C3 applies to it. -/
theorem C3_existing_workload_is_updated_witness :
    exReconciler.GetOperator exStoreRunning exReq.NamespacedName = .ok exOperator ∧
    exReconciler.GetDeployment exStoreRunning exReq.NamespacedName = .ok exDeployment ∧
    (Reconcile exReconciler exReq exStoreRunning).outcome = .done ∧
    (Reconcile exReconciler exReq exStoreRunning).store.deployments.map firstPort =
      [some 8080] ∧
    (Reconcile exReconciler exReq exStoreRunning).store.deployments.map
      (fun d => d.Spec.Replicas) = [some 5] ∧
    ∃ d s1 d1 written,
      setDeploymentFields exReconciler exReq exOperator exDeployment = .ok d ∧
      exReconciler.Update exStoreRunning d = .ok (s1, d1) ∧
      exReconciler.StatusUpdate s1 written =
        .ok (Reconcile exReconciler exReq exStoreRunning).store ∧
      (Reconcile exReconciler exReq exStoreRunning).calls.filter Call.isUpdate = [.Update d] ∧
      (Reconcile exReconciler exReq exStoreRunning).calls.filter Call.isCreate = [] ∧
      d.Namespace = exReq.Namespace ∧ d.Name = exReq.Name ∧
      d.Spec.Replicas = some 5 ∧
      (∀ P, exOperator.Spec.Port = some P → firstPort d = some P) :=
  ⟨rfl, rfl, by decide, by decide, by decide,
    C3_existing_workload_is_updated exReconciler exReq exStoreRunning exOperator exDeployment
      rfl rfl (by decide)⟩

/-- C4: when the lookup of the desired state reports not-found, the pass
returns success, its only store call is that lookup (no create, update or
status update), and the store is unchanged. -/
theorem C4_missing_desired_state_is_noop {σ : Type} (r : NginxOperatorReconciler σ)
    (req : Request) (s : σ) (err : Err)
    (hop : r.GetOperator s req.NamespacedName = .error err)
    (hnf : errors.IsNotFound err = true) :
    (Reconcile r req s).outcome = .done ∧
      (Reconcile r req s).calls = [.GetOperator req.NamespacedName] ∧
      (Reconcile r req s).calls.filter Call.isWrite = [] ∧
      (Reconcile r req s).store = s := by
  simp [Reconcile, hop, hnf, Call.isWrite]

/-- C4 (witness): the desired state `a/x` is gone from the store while its
workload and a pod remain; the pass is a no-op. -/
theorem C4_missing_desired_state_is_noop_witness :
    exReconciler.GetOperator exStoreDeleted exReq.NamespacedName = .error .notFound ∧
    errors.IsNotFound .notFound = true ∧
    (Reconcile exReconciler exReq exStoreDeleted).outcome = .done ∧
    (Reconcile exReconciler exReq exStoreDeleted).calls = [.GetOperator exReq.NamespacedName] ∧
    (Reconcile exReconciler exReq exStoreDeleted).calls.filter Call.isWrite = [] ∧
    (Reconcile exReconciler exReq exStoreDeleted).store = exStoreDeleted :=
  ⟨rfl, rfl,
    C4_missing_desired_state_is_noop exReconciler exReq exStoreDeleted .notFound rfl rfl⟩

/-- C5: a failing store call ends the pass with that failure, the failing call
is the last call issued, and the store is the one left by the calls that
succeeded before it: (1) lookup of the desired state, (2) lookup of the
workload, (3) create or update, after which neither listing nor status write
happens and the store is untouched, (4) listing, (5) status update, after both
of which the workload stays written and the status is not. -/
theorem C5_store_failure_aborts_pass {σ : Type} (r : NginxOperatorReconciler σ)
    (req : Request) (s : σ) :
    (∀ err, r.GetOperator s req.NamespacedName = .error err →
        errors.IsNotFound err = false →
        Reconcile r req s = ⟨.failed err, [.GetOperator req.NamespacedName], s⟩) ∧
    (∀ operatorCR err, r.GetOperator s req.NamespacedName = .ok operatorCR →
        r.GetDeployment s req.NamespacedName = .error err →
        errors.IsNotFound err = false →
        Reconcile r req s =
          ⟨.failed err,
            [.GetOperator req.NamespacedName, .GetDeployment req.NamespacedName], s⟩) ∧
    (∀ operatorCR create base d err, r.GetOperator s req.NamespacedName = .ok operatorCR →
        fetchDeployment r req s = .ok (create, base) →
        setDeploymentFields r req operatorCR base = .ok d →
        writeDeployment r s create d = .error err →
        Reconcile r req s =
          ⟨.failed err,
            [.GetOperator req.NamespacedName, .GetDeployment req.NamespacedName,
              writeCall create d], s⟩) ∧
    (∀ operatorCR create base d s1 d1 selector err,
        r.GetOperator s req.NamespacedName = .ok operatorCR →
        fetchDeployment r req s = .ok (create, base) →
        setDeploymentFields r req operatorCR base = .ok d →
        writeDeployment r s create d = .ok (s1, d1) →
        d1.Spec.Selector = some selector →
        r.ListPods s1 req.Namespace selector.MatchLabels = .error err →
        Reconcile r req s =
          ⟨.failed err,
            [.GetOperator req.NamespacedName, .GetDeployment req.NamespacedName,
              writeCall create d, .ListPods req.Namespace selector.MatchLabels], s1⟩) ∧
    (∀ operatorCR create base d s1 d1 selector podList err,
        r.GetOperator s req.NamespacedName = .ok operatorCR →
        fetchDeployment r req s = .ok (create, base) →
        setDeploymentFields r req operatorCR base = .ok d →
        writeDeployment r s create d = .ok (s1, d1) →
        d1.Spec.Selector = some selector →
        r.ListPods s1 req.Namespace selector.MatchLabels = .ok podList →
        r.StatusUpdate s1 { operatorCR with Status := { Nodes := activePods podList } } =
          .error err →
        Reconcile r req s =
          ⟨.failed err,
            [.GetOperator req.NamespacedName, .GetDeployment req.NamespacedName,
              writeCall create d, .ListPods req.Namespace selector.MatchLabels,
              .StatusUpdate { operatorCR with Status := { Nodes := activePods podList } }],
            s1⟩) := by
  refine ⟨?_, ?_, ?_, ?_, ?_⟩
  · intro err hop hnf
    simp [Reconcile, hop, hnf]
  · intro operatorCR err hop hdep hnf
    simp only [Reconcile, hop, fetchDeployment_error r req s err hdep hnf]
  · intro operatorCR create base d err hop hf hd hw
    simp only [Reconcile, hop, hf, hd, hw]
  · intro operatorCR create base d s1 d1 selector err hop hf hd hw hsel hl
    exact Reconcile_list_error r req s operatorCR create base d s1 d1 selector err
      hop hf hd hw hsel hl
  · intro operatorCR create base d s1 d1 selector podList err hop hf hd hw hsel hl hs
    exact Reconcile_status_error r req s operatorCR create base d s1 d1 selector podList err
      hop hf hd hw hsel hl hs

/-- C5 (witness): one failing call at each of the five places, on the fresh
store: the outcome is the injected error, and the workload is stored exactly
when the failure came after the create. -/
theorem C5_store_failure_aborts_pass_witness :
    (Reconcile exGetOperatorFails exReq exStoreFresh).outcome = .failed .conflict ∧
    (Reconcile exGetOperatorFails exReq exStoreFresh).store = exStoreFresh ∧
    (Reconcile exGetDeploymentFails exReq exStoreFresh).outcome = .failed (.other "timeout") ∧
    (Reconcile exGetDeploymentFails exReq exStoreFresh).calls.length = 2 ∧
    (Reconcile exCreateFails exReq exStoreFresh).outcome = .failed .alreadyExists ∧
    (Reconcile exCreateFails exReq exStoreFresh).calls.length = 3 ∧
    (Reconcile exCreateFails exReq exStoreFresh).store = exStoreFresh ∧
    (Reconcile exListFails exReq exStoreFresh).outcome = .failed (.other "timeout") ∧
    (Reconcile exListFails exReq exStoreFresh).calls.length = 4 ∧
    (Reconcile exListFails exReq exStoreFresh).store.deployments.length = 1 ∧
    (Reconcile exStatusUpdateFails exReq exStoreFresh).outcome = .failed .conflict ∧
    (Reconcile exStatusUpdateFails exReq exStoreFresh).store.deployments.length = 1 ∧
    (Reconcile exStatusUpdateFails exReq exStoreFresh).store.operators = [exOperator] :=
  have h1 := (C5_store_failure_aborts_pass exGetOperatorFails exReq exStoreFresh).1
    .conflict rfl rfl
  have h2 := (C5_store_failure_aborts_pass exGetDeploymentFails exReq exStoreFresh).2.1
    exOperator (.other "timeout") rfl rfl rfl
  have h3 := (C5_store_failure_aborts_pass exCreateFails exReq exStoreFresh).2.2.1
    exOperator true exTemplate _ .alreadyExists rfl rfl rfl rfl
  have h4 := (C5_store_failure_aborts_pass exListFails exReq exStoreFresh).2.2.2.1
    exOperator true exTemplate _ _ _ ⟨[("app", "nginx")]⟩ (.other "timeout")
    rfl rfl rfl rfl rfl rfl
  have h5 := (C5_store_failure_aborts_pass exStatusUpdateFails exReq exStoreFresh).2.2.2.2
    exOperator true exTemplate _ _ _ ⟨[("app", "nginx")]⟩ [] .conflict
    rfl rfl rfl rfl rfl rfl rfl
  ⟨congrArg Run.outcome h1, congrArg Run.store h1,
    congrArg Run.outcome h2, congrArg (fun run => run.calls.length) h2,
    congrArg Run.outcome h3, congrArg (fun run => run.calls.length) h3, congrArg Run.store h3,
    congrArg Run.outcome h4, congrArg (fun run => run.calls.length) h4,
    congrArg (fun run => run.store.deployments.length) h4,
    congrArg Run.outcome h5, congrArg (fun run => run.store.deployments.length) h5,
    congrArg (fun run => run.store.operators) h5⟩

/-- C6 (as amended): when the desired state specifies no port, the workload
written by a successful pass keeps the pod template of the workload the pass
started from, so its first container keeps its first port and nothing
overwrites it: that port is the default of the template on the create path and
the port of the existing workload on the update path. -/
theorem C6_unset_port_keeps_default {σ : Type} (r : NginxOperatorReconciler σ)
    (req : Request) (s : σ) (operatorCR : NginxOperator)
    (hop : r.GetOperator s req.NamespacedName = .ok operatorCR)
    (hport : operatorCR.Spec.Port = none)
    (hdone : (Reconcile r req s).outcome = .done) :
    ∃ create base d,
      fetchDeployment r req s = .ok (create, base) ∧
      (create = true → base = r.GetDeploymentFromFile "manifests/nginx_deployment.yaml") ∧
      (create = false → r.GetDeployment s req.NamespacedName = .ok base) ∧
      (Reconcile r req s).calls.filter (fun c => c.isCreate || c.isUpdate) =
        [writeCall create d] ∧
      d.Spec.Template = base.Spec.Template ∧
      firstPort d = firstPort base := by
  obtain ⟨create, base, d, s1, d1, selector, podList, s2, hf, hd, hw, _, _, _, hrun⟩ :=
    Reconcile_done_inv r req s operatorCR hop hdone
  obtain ⟨_, _, _, _, _, h6⟩ := setDeploymentFields_ok r req operatorCR _ d hd
  have ht := h6 hport
  refine ⟨create, base, d, hf, ?_, ?_, ?_, ht, ?_⟩
  · intro hc
    subst hc
    unfold fetchDeployment at hf
    split at hf
    · split at hf
      · cases hf; rfl
      · cases hf
    · cases hf
  · intro hc
    subst hc
    unfold fetchDeployment at hf
    split at hf
    · split at hf
      · cases hf
      · cases hf
    · rename_i dep hdep
      cases hf
      exact hdep
  · rw [hrun]; cases create <;> simp [writeCall, Call.isCreate, Call.isUpdate]
  · simp [firstPort, ht]

/-- C6 (witness): the desired state carries no port. Without a workload the
pass creates one that keeps the template port 80; with a workload on port 8080
the pass updates it and the port stays 8080. -/
theorem C6_unset_port_keeps_default_witness :
    (exReconciler.GetOperator exStoreNoPort exReq.NamespacedName = .ok exOperatorNoPort ∧
      exOperatorNoPort.Spec.Port = none ∧
      (Reconcile exReconciler exReq exStoreNoPort).outcome = .done ∧
      (Reconcile exReconciler exReq exStoreNoPort).store.deployments.map firstPort =
        [some 80] ∧
      ∃ create base d,
        fetchDeployment exReconciler exReq exStoreNoPort = .ok (create, base) ∧
        (create = true →
          base = exReconciler.GetDeploymentFromFile "manifests/nginx_deployment.yaml") ∧
        (create = false →
          exReconciler.GetDeployment exStoreNoPort exReq.NamespacedName = .ok base) ∧
        (Reconcile exReconciler exReq exStoreNoPort).calls.filter
            (fun c => c.isCreate || c.isUpdate) = [writeCall create d] ∧
        d.Spec.Template = base.Spec.Template ∧
        firstPort d = firstPort base) ∧
    (exReconciler.GetOperator exStoreNoPortExisting exReq.NamespacedName =
        .ok exOperatorNoPort ∧
      (Reconcile exReconciler exReq exStoreNoPortExisting).outcome = .done ∧
      (Reconcile exReconciler exReq exStoreNoPortExisting).store.deployments.map firstPort =
        [some 8080] ∧
      ∃ create base d,
        fetchDeployment exReconciler exReq exStoreNoPortExisting = .ok (create, base) ∧
        (create = true →
          base = exReconciler.GetDeploymentFromFile "manifests/nginx_deployment.yaml") ∧
        (create = false →
          exReconciler.GetDeployment exStoreNoPortExisting exReq.NamespacedName =
            .ok base) ∧
        (Reconcile exReconciler exReq exStoreNoPortExisting).calls.filter
            (fun c => c.isCreate || c.isUpdate) = [writeCall create d] ∧
        d.Spec.Template = base.Spec.Template ∧
        firstPort d = firstPort base) :=
  ⟨⟨rfl, rfl, by decide, by decide,
      C6_unset_port_keeps_default exReconciler exReq exStoreNoPort exOperatorNoPort rfl rfl
        (by decide)⟩,
    ⟨rfl, by decide, by decide,
      C6_unset_port_keeps_default exReconciler exReq exStoreNoPortExisting exOperatorNoPort
        rfl rfl (by decide)⟩⟩

/-- C6 (counterexample to the claim as stated): the desired state carries no
port and the workload already exists on port 8080, while the default of the
template is port 80. The pass succeeds through the update path, and the first
port of the first container of the workload it submits and leaves in the store
is 8080, not the default of the template. -/
theorem C6_update_path_port_is_not_template_default :
    exOperatorNoPort.Spec.Port = none ∧
    exReconciler.GetOperator exStoreNoPortExisting exReq.NamespacedName =
      .ok exOperatorNoPort ∧
    exReconciler.GetDeployment exStoreNoPortExisting exReq.NamespacedName =
      .ok exDeployment8080 ∧
    firstPort (exReconciler.GetDeploymentFromFile "manifests/nginx_deployment.yaml") =
      some 80 ∧
    (Reconcile exReconciler exReq exStoreNoPortExisting).outcome = .done ∧
    ((Reconcile exReconciler exReq exStoreNoPortExisting).calls.filter
        (fun c => c.isCreate || c.isUpdate)).map
      (fun c => match c with
        | .Create d => firstPort d
        | .Update d => firstPort d
        | _ => none) = [some 8080] ∧
    (Reconcile exReconciler exReq exStoreNoPortExisting).calls.filter Call.isCreate = [] ∧
    (Reconcile exReconciler exReq exStoreNoPortExisting).store.deployments.map firstPort =
      [some 8080] ∧
    (Reconcile exReconciler exReq exStoreNoPortExisting).store.deployments.map firstPort ≠
      [firstPort (exReconciler.GetDeploymentFromFile "manifests/nginx_deployment.yaml")] :=
  ⟨rfl, rfl, rfl, rfl, by decide, by decide, by decide, by decide, by decide⟩

/-- C7: over the reference object store, a pass that succeeds can be repeated:
the second pass, run on the store the first one left, succeeds as well and
leaves that store unchanged, so the workload and the status of the desired
state are identical to those left by the first pass. -/
theorem C7_second_pass_changes_nothing (scheme : Scheme) (template : Deployment)
    (req : Request) (s : Store)
    (hdone : (Reconcile (storeReconciler scheme template) req s).outcome = .done) :
    (Reconcile (storeReconciler scheme template) req
        (Reconcile (storeReconciler scheme template) req s).store).outcome = .done ∧
    (Reconcile (storeReconciler scheme template) req
        (Reconcile (storeReconciler scheme template) req s).store).store =
      (Reconcile (storeReconciler scheme template) req s).store := by
  cases hop : (storeReconciler scheme template).GetOperator s req.NamespacedName with
  | error err =>
    by_cases hnf : errors.IsNotFound err = true
    · have h1 : Reconcile (storeReconciler scheme template) req s =
          ⟨.done, [.GetOperator req.NamespacedName], s⟩ := by
        simp only [Reconcile, hop, hnf, if_true]
      rw [h1]
      simp only
      rw [h1]
      exact ⟨rfl, rfl⟩
    · simp only [Reconcile, hop, hnf] at hdone
      simp at hdone
  | ok cr =>
    obtain ⟨create, base, d, s1, d1, selector, podList, s2, _, hd, hw, hsel, hl, hs, hrun⟩ :=
      Reconcile_done_inv (storeReconciler scheme template) req s cr hop hdone
    rw [hrun]
    exact Reconcile_store_again scheme template req s cr create base d s1 d1 selector podList
      s2 hop hd hw hsel hl hs

/-- C7 (witness): two passes over the store with three pods; the first one
changes the workload port, the replica count and the status. -/
theorem C7_second_pass_changes_nothing_witness :
    (Reconcile exReconciler exReq exStoreRunning).outcome = .done ∧
    (Reconcile exReconciler exReq exStoreRunning).store ≠ exStoreRunning ∧
    (Reconcile exReconciler exReq
        (Reconcile exReconciler exReq exStoreRunning).store).outcome = .done ∧
    (Reconcile exReconciler exReq
        (Reconcile exReconciler exReq exStoreRunning).store).store =
      (Reconcile exReconciler exReq exStoreRunning).store :=
  ⟨by decide, by decide,
    C7_second_pass_changes_nothing exScheme exTemplate exReq exStoreRunning (by decide)⟩

/-- C8 (the code at the failing input): the error returned by
`ctrl.SetControllerReference` never reaches the outcome. On the workload `a/x`
that another owner controls the library call reports `alreadyOwned` and leaves
the owner references as they were, yet the pass submits the workload in one
update, returns success, and the stored workload carries only the foreign owner
reference. For every reconciler the pass is the same as with the error
silenced. -/
theorem C8_owner_reference_error_is_dropped :
    SetControllerReference exScheme exOperator exOwnedSubmitted =
      ([exForeignOwner], some .alreadyOwned) ∧
    setDeploymentFields (storeReconciler exScheme exTemplate) exReq exOperator
      exOwnedDeployment = .ok exOwnedSubmitted ∧
    (Reconcile (storeReconciler exScheme exTemplate) exReq exStoreOwned).outcome = .done ∧
    (Reconcile (storeReconciler exScheme exTemplate) exReq exStoreOwned).calls.filter
        Call.isUpdate = [.Update exOwnedSubmitted] ∧
    (Reconcile (storeReconciler exScheme exTemplate) exReq exStoreOwned).store.deployments =
      [exOwnedSubmitted] ∧
    exOwnedSubmitted.OwnerReferences = [exForeignOwner] ∧
    (∀ (σ : Type) (r : NginxOperatorReconciler σ) (req : Request) (s : σ),
        Reconcile (silenceOwnerError r) req s = Reconcile r req s) := by
  refine ⟨rfl, rfl, by decide, by decide, by decide, rfl, ?_⟩
  intro σ r req s
  rfl

/-- C9 (as amended): with a port set, the port override succeeds when the first
container of the workload exists and declares at least one port, and then the
first port of the first container is the desired port; when the first container
is missing or declares no port the pass panics with an index out of range after
the two lookups, before any write, and leaves the store unchanged; with no port
set the step cannot fail. -/
theorem C9_port_override_needs_first_container_port {σ : Type}
    (r : NginxOperatorReconciler σ) (req : Request) (s : σ) (operatorCR : NginxOperator)
    (create : Bool) (base : Deployment)
    (hop : r.GetOperator s req.NamespacedName = .ok operatorCR)
    (hf : fetchDeployment r req s = .ok (create, base)) :
    (∀ P, operatorCR.Spec.Port = some P → firstPort base ≠ none →
        ∃ d, setDeploymentFields r req operatorCR base = .ok d ∧ firstPort d = some P) ∧
    (∀ P, operatorCR.Spec.Port = some P → firstPort base = none →
        overridePort operatorCR base = .error .indexOutOfRange ∧
        Reconcile r req s =
          ⟨.panicked .indexOutOfRange,
            [.GetOperator req.NamespacedName, .GetDeployment req.NamespacedName], s⟩ ∧
        (Reconcile r req s).calls.filter Call.isWrite = []) ∧
    (operatorCR.Spec.Port = none →
        overridePort operatorCR base = .ok base ∧
        ∃ d, setDeploymentFields r req operatorCR base = .ok d) := by
  refine ⟨?_, ?_, ?_⟩
  · intro P hP hfp
    have hfp2 : firstPort
        { base with Namespace := req.Namespace, Name := req.Name,
                    Spec := { base.Spec with Replicas := some 5 } } ≠ none := by
      simpa [firstPort] using hfp
    obtain ⟨d0, hd0⟩ := (setContainerPort_error _ P).2 hfp2
    have hd : setDeploymentFields r req operatorCR base =
        .ok { d0 with OwnerReferences := (r.SetControllerReference operatorCR d0).1 } := by
      simp only [setDeploymentFields, overridePort, hP, hd0]
    exact ⟨_, hd, (setDeploymentFields_ok r req operatorCR base _ hd).2.2.2.2.1 P hP⟩
  · intro P hP hfp
    have hfp2 : firstPort
        { base with Namespace := req.Namespace, Name := req.Name,
                    Spec := { base.Spec with Replicas := some 5 } } = none := by
      simpa [firstPort] using hfp
    have he := (setContainerPort_error _ P).1 hfp2
    have hd : setDeploymentFields r req operatorCR base = .error .indexOutOfRange := by
      simp only [setDeploymentFields, overridePort, hP, he]
    have hrun : Reconcile r req s =
        ⟨.panicked .indexOutOfRange,
          [.GetOperator req.NamespacedName, .GetDeployment req.NamespacedName], s⟩ := by
      simp only [Reconcile, hop, hf, hd]
    refine ⟨?_, hrun, ?_⟩
    · simp only [overridePort, hP]
      exact (setContainerPort_error _ P).1 hfp
    · rw [hrun]; simp [Call.isWrite]
  · intro hP
    refine ⟨by simp only [overridePort, hP], ?_⟩
    simp only [setDeploymentFields, overridePort, hP]
    exact ⟨_, rfl⟩

/-- C9 (witness): with the one-container template the override puts 8080 on
the first port; with a template without containers the pass panics before any
write. -/
theorem C9_port_override_needs_first_container_port_witness :
    exReconciler.GetOperator exStoreFresh exReq.NamespacedName = .ok exOperator ∧
    fetchDeployment exReconciler exReq exStoreFresh = .ok (true, exTemplate) ∧
    (∃ d, setDeploymentFields exReconciler exReq exOperator exTemplate = .ok d ∧
      firstPort d = some 8080) ∧
    fetchDeployment (storeReconciler exScheme exEmptyTemplate) exReq exStoreFresh =
      .ok (true, exEmptyTemplate) ∧
    (Reconcile (storeReconciler exScheme exEmptyTemplate) exReq exStoreFresh).outcome =
      .panicked .indexOutOfRange ∧
    (Reconcile (storeReconciler exScheme exEmptyTemplate) exReq exStoreFresh).store =
      exStoreFresh :=
  have hok := (C9_port_override_needs_first_container_port exReconciler exReq exStoreFresh
    exOperator true exTemplate rfl rfl).1 8080 rfl (by decide)
  have hbad := ((C9_port_override_needs_first_container_port
    (storeReconciler exScheme exEmptyTemplate) exReq exStoreFresh
    exOperator true exEmptyTemplate rfl rfl).2.1 8080 rfl rfl).2.1
  ⟨rfl, rfl, hok, rfl, congrArg Run.outcome hbad, congrArg Run.store hbad⟩

/-- C9 (counterexample to the claim as stated): the workload has a container
with a port entry (the second one) and the desired state sets a port, yet the
port override panics and so does the pass, because the override addresses the
first container only. -/
theorem C9_some_container_with_port_is_not_enough :
    exOperator.Spec.Port = some 8080 ∧
    hasContainerWithPort exSidecarTemplate = true ∧
    overridePort exOperator exSidecarTemplate = .error .indexOutOfRange ∧
    (Reconcile (storeReconciler exScheme exSidecarTemplate) exReq exStoreFresh).outcome =
      .panicked .indexOutOfRange :=
  ⟨by decide, by decide, rfl, by decide⟩

/-- C10: once the workload has been written, a missing label selector on it
makes the pass panic with a nil dereference: the write is the last store call,
no listing and no status write follow, and the store is the one the write
left. With a selector present the pass does not panic and goes on to issue the
listing for that selector. -/
theorem C10_missing_selector_panics_after_write {σ : Type}
    (r : NginxOperatorReconciler σ) (req : Request) (s : σ) (operatorCR : NginxOperator)
    (create : Bool) (base d : Deployment) (s1 : σ) (d1 : Deployment)
    (hop : r.GetOperator s req.NamespacedName = .ok operatorCR)
    (hf : fetchDeployment r req s = .ok (create, base))
    (hd : setDeploymentFields r req operatorCR base = .ok d)
    (hw : writeDeployment r s create d = .ok (s1, d1)) :
    (d1.Spec.Selector = none →
        Reconcile r req s =
          ⟨.panicked .nilDereference,
            [.GetOperator req.NamespacedName, .GetDeployment req.NamespacedName,
              writeCall create d], s1⟩) ∧
    (∀ selector, d1.Spec.Selector = some selector →
        (∀ p, (Reconcile r req s).outcome ≠ .panicked p) ∧
        Call.ListPods req.Namespace selector.MatchLabels ∈ (Reconcile r req s).calls) := by
  refine ⟨?_, ?_⟩
  · intro hsel
    simp only [Reconcile, hop, hf, hd, hw, hsel]
  · intro selector hsel
    cases hl : r.ListPods s1 req.Namespace selector.MatchLabels with
    | error err =>
      rw [Reconcile_list_error r req s operatorCR create base d s1 d1 selector err
        hop hf hd hw hsel hl]
      simp
    | ok podList =>
      cases hs : r.StatusUpdate s1
          { operatorCR with Status := { Nodes := activePods podList } } with
      | error err =>
        rw [Reconcile_status_error r req s operatorCR create base d s1 d1 selector podList err
          hop hf hd hw hsel hl hs]
        simp
      | ok s2 =>
        rw [Reconcile_done_of r req s operatorCR create base d s1 d1 selector podList s2
          hop hf hd hw hsel hl hs]
        simp

/-- C10 (witness): the template has a container with a port, so the port
override succeeds, but it has no label selector: the workload is created and
then the pass panics, without listing and without a status write. -/
theorem C10_missing_selector_panics_after_write_witness :
    firstPort exTemplateNoSelector = some 80 ∧
    (Reconcile (storeReconciler exScheme exTemplateNoSelector) exReq exStoreFresh).outcome =
      .panicked .nilDereference ∧
    (Reconcile (storeReconciler exScheme exTemplateNoSelector) exReq exStoreFresh).calls.length
      = 3 ∧
    (Reconcile (storeReconciler exScheme exTemplateNoSelector) exReq
      exStoreFresh).store.deployments.length = 1 ∧
    (Reconcile (storeReconciler exScheme exTemplateNoSelector) exReq
      exStoreFresh).store.operators = [exOperator] :=
  have h := (C10_missing_selector_panics_after_write
    (storeReconciler exScheme exTemplateNoSelector) exReq exStoreFresh exOperator true
    exTemplateNoSelector _ _ _ rfl rfl rfl rfl).1 rfl
  ⟨rfl, congrArg Run.outcome h, congrArg (fun run => run.calls.length) h,
    congrArg (fun run => run.store.deployments.length) h,
    congrArg (fun run => run.store.operators) h⟩

end NginxOperatorController
